import Mathlib

set_option maxRecDepth 8000

namespace OpenClaw

/-- Conversation message: a history entry `{role, content, timestamp}` as stored by the
agent (`Agent._add_to_history` in `src/agent/core.py`); the ISO timestamp string is
abstracted as a `Nat` instant, which no routing or history logic inspects. -/
structure Message where
  role : String
  content : String
  timestamp : Nat
  deriving DecidableEq, Repr

/-- Python `str.lower()` restricted to the ASCII case mapping (the embedding models
strings over the ASCII fragment, on which Lean's `Char.toLower` agrees with Python). -/
def pyLower (s : String) : String := String.mk (s.data.map Char.toLower)

/-- Python `str.strip()`: remove leading and trailing whitespace. -/
def pyStrip (s : String) : String :=
  String.mk (((s.data.dropWhile Char.isWhitespace).reverse.dropWhile Char.isWhitespace).reverse)

/-- Accumulator-based splitter implementing Python `str.split()` with no separator:
splits on whitespace runs and drops empty pieces. -/
def wordsCoreAux : List Char → List Char → List (List Char)
  | [], acc => if acc.isEmpty then [] else [acc.reverse]
  | c :: cs, acc =>
    if c.isWhitespace then
      (if acc.isEmpty then wordsCoreAux cs [] else acc.reverse :: wordsCoreAux cs [])
    else wordsCoreAux cs (c :: acc)

/-- Python `str.split()` with no arguments (whitespace-run split, empties dropped). -/
def pyWords (s : String) : List String := (wordsCoreAux s.data []).map String.mk

/-- Boolean test that the first list is an initial segment of the second. -/
def listBeginsWith : List Char → List Char → Bool
  | [], _ => true
  | _ :: _, [] => false
  | a :: as, b :: bs => a == b && listBeginsWith as bs

/-- Python substring containment (the `in` operator on `str`), on character lists. -/
def subListB (needle : List Char) : List Char → Bool
  | [] => listBeginsWith needle []
  | c :: t => listBeginsWith needle (c :: t) || subListB needle t

/-- Python substring containment on strings: `needle in hay`. -/
def subStr (needle hay : String) : Bool := subListB needle.data hay.data

/-- Python `s.startswith(pre)`. -/
def pyStartsWith (s pre : String) : Bool := listBeginsWith pre.data s.data

/-- Word character for the regex `\b` boundary (ASCII `\w`). -/
def isWordChar (c : Char) : Bool := c.isAlphanum || c == '_'

/-- Occurrence of the word `w` at index `i` of `s` with `\b` boundaries on both sides
(all words used by the router consist of word characters, so a boundary holds exactly
when the adjacent character, if any, is not a word character). -/
def wordAt (w s : List Char) (i : Nat) : Bool :=
  ((s.drop i).take w.length == w)
    && (i == 0 || !(isWordChar (s.getD (i - 1) ' ')))
    && (i + w.length == s.length || !(isWordChar (s.getD (i + w.length) ' ')))

/-- Existence of a match of the pattern `\bw\b` anywhere in `s` (Python `re.search`). -/
def searchWordB (w s : List Char) : Bool :=
  (List.range (s.length + 1)).any (fun i => wordAt w s i)

/-- All characters of `s` with index in `[a, b)` differ from newline (the regex `.`
does not match a newline without `re.DOTALL`). -/
def noNewlineBetween (s : List Char) (a b : Nat) : Bool :=
  ((s.drop a).take (b - a)).all (fun c => !(c == '\n'))

/-- Existence of a match of `\bw\b.*c` in `s` for a literal final character `c`. -/
def searchWordDotChar (w : List Char) (c : Char) (s : List Char) : Bool :=
  (List.range (s.length + 1)).any (fun i =>
    wordAt w s i && (List.range s.length).any (fun j =>
      decide (i + w.length ≤ j) && s.getD j ' ' == c && noNewlineBetween s (i + w.length) j))

/-- Existence of a match of `\bw1\b.*\bw2\b` in `s`. -/
def searchWordDotWord (w1 w2 s : List Char) : Bool :=
  (List.range (s.length + 1)).any (fun i =>
    wordAt w1 s i && (List.range (s.length + 1)).any (fun j =>
      decide (i + w1.length ≤ j) && wordAt w2 s j && noNewlineBetween s (i + w1.length) j))

/-- The five complex-question regex patterns of `ModelRouter._calculate_complexity`:
`\bwhy\b.*\?`, `\bhow\b.*\bwork\b`, `\bexplain\b`, `\bcompare\b`,
`\bdifference\b.*\bbetween\b`, each as a matcher on the lower-cased message. -/
def complexPatterns : List (List Char → Bool) :=
  [ fun s => searchWordDotChar ("why").data '?' s,
    fun s => searchWordDotWord ("how").data ("work").data s,
    fun s => searchWordB ("explain").data s,
    fun s => searchWordB ("compare").data s,
    fun s => searchWordDotWord ("difference").data ("between").data s ]

/-- Python `str.split(sep)` for a one-character separator: keeps empty pieces. -/
def splitChar (sep : Char) : List Char → List (List Char)
  | [] => [[]]
  | c :: cs =>
    if c == sep then [] :: splitChar sep cs
    else
      match splitChar sep cs with
      | [] => [[c]]
      | w :: ws => (c :: w) :: ws

/-- Model of `Settings.gemini_keywords_list`: pipe-split the raw keyword string, then strip and
lower-case each piece (`src/config/settings.py`). -/
def geminiKeywordsList (raw : String) : List String :=
  ((splitChar '|' raw.data).map String.mk).map (fun k => pyLower (pyStrip k))

/-- Outcome of a single adapter invocation: the generated text, or the stringified
exception the call raised. -/
inductive CallResult where
  | ok (text : String)
  | err (message : String)
  deriving DecidableEq, Repr

/-- State of `ModelRouter` after `__init__`: whether the Gemini (cloud) client was
constructed (`settings.gemini_api_key` present), whether the Ollama (local) client
exists (always, in the source), the configured trigger keywords and complexity
threshold, and the configured model-name strings used in responses. -/
structure RouterState where
  geminiConfigured : Bool
  ollamaPresent : Bool
  triggerKeywords : List String
  complexityThreshold : Nat
  ollamaModel : String
  geminiModel : String
  deriving DecidableEq, Repr

/-- The dict returned by `ModelRouter.generate`: keys `text`, `model`,
`model_version` (absent on the failure path, hence `Option`), `success`,
`fallback` (present only on the fallback-success path, modelled as a `Bool` that is
`false` when the key is absent) and `error` (absent unless failure). -/
structure RouterResponse where
  text : String
  model : String
  modelVersion : Option String
  success : Bool
  fallback : Bool
  error : Option String
  deriving DecidableEq, Repr

/-- Result of one `ModelRouter.generate` call together with how many times each
adapter was awaited during the call (instrumentation recording invocations; the
response itself is exactly the source's return value). -/
structure GenOutcome where
  resp : RouterResponse
  geminiCalls : Nat
  ollamaCalls : Nat
  deriving DecidableEq, Repr

/-- Model of `ModelRouter._calculate_complexity`: base word count, 200 per trigger keyword
found as a substring of the lower-cased message, 150 for code indicators
(checked against the original message), 100 per complex-question pattern matching
the lower-cased message, plus total context word count integer-divided by 10
(added only when the context is non-empty, as in the source's truthiness test). -/
def calculateComplexity (keywords : List String) (message : String)
    (context : List Message) : Nat :=
  let score := (pyWords message).length
  let messageLower := pyLower message
  let score := keywords.foldl (fun sc k => if subStr k messageLower then sc + 200 else sc) score
  let score := score +
    (if subStr ("```") message || subStr ("def ") message || subStr ("function") message
     then 150 else 0)
  let score := complexPatterns.foldl (fun sc p => if p messageLower.data then sc + 100 else sc) score
  let score := score +
    (if context.isEmpty then 0
     else (context.map (fun m => (pyWords m.content).length)).sum / 10)
  score

/-- Model of `ModelRouter._should_use_gemini`: false when the Gemini client is absent,
otherwise compare the complexity score against the threshold. -/
def shouldUseGemini (st : RouterState) (message : String) (context : List Message) : Bool :=
  if !st.geminiConfigured then false
  else decide (st.complexityThreshold ≤ calculateComplexity st.triggerKeywords message context)

/-- The `use_gemini` selection at the top of `ModelRouter.generate`:
forced gemini (when configured), else forced ollama, else the complexity policy. -/
def selectBackend (st : RouterState) (message : String) (context : List Message)
    (forceModel : Option String) : Bool :=
  if forceModel == some ("gemini") && st.geminiConfigured then true
  else if forceModel == some ("ollama") then false
  else shouldUseGemini st message context

/-- The generic apology text returned by `ModelRouter.generate` on failure. -/
def apologyText : String := "I\x27m sorry, I encountered an error processing your request."

/-- Model of `ModelRouter.generate`: select a backend, await it, and on a cloud failure with
the local client present retry the local client once; `geminiResult` and
`ollamaResult` are the outcomes the respective adapter produces if awaited. -/
def generate (st : RouterState) (geminiResult ollamaResult : CallResult)
    (message : String) (context : List Message) (forceModel : Option String) : GenOutcome :=
  let useGemini := selectBackend st message context forceModel
  let modelName := if useGemini then ("gemini") else ("ollama")
  match (if useGemini then geminiResult else ollamaResult) with
  | CallResult.ok text =>
      { resp := { text := text, model := modelName,
                  modelVersion := some (if useGemini then st.geminiModel else st.ollamaModel),
                  success := true, fallback := false, error := none },
        geminiCalls := if useGemini then 1 else 0,
        ollamaCalls := if useGemini then 0 else 1 }
  | CallResult.err e =>
      if useGemini && st.ollamaPresent then
        match ollamaResult with
        | CallResult.ok text =>
            { resp := { text := text, model := ("ollama"), modelVersion := some st.ollamaModel,
                        success := true, fallback := true, error := none },
              geminiCalls := 1, ollamaCalls := 1 }
        | CallResult.err _ =>
            { resp := { text := apologyText, model := modelName, modelVersion := none,
                        success := false, fallback := false, error := some e },
              geminiCalls := 1, ollamaCalls := 1 }
      else
        { resp := { text := apologyText, model := modelName, modelVersion := none,
                    success := false, fallback := false, error := some e },
          geminiCalls := if useGemini then 1 else 0,
          ollamaCalls := if useGemini then 0 else 1 }

/-- The conversation store `Agent.conversations`: an insertion-ordered association
list modelling the Python dict from `user_id` to message history. -/
abbrev ConvStore : Type := List (String × List Message)

/-- Dict lookup: the stored history for `uid`, if present. -/
def lookupConv (conv : ConvStore) (uid : String) : Option (List Message) :=
  ((conv : List (String × List Message)).find? (fun p => p.1 == uid)).map (fun p => p.2)

/-- Dict assignment `conversations[uid] = h`: overwrite in place when the key is
present (keeping its position, as Python dicts do), otherwise append the new key. -/
def setConv (conv : ConvStore) (uid : String) (h : List Message) : ConvStore :=
  if ((conv : List (String × List Message)).find? (fun p => p.1 == uid)).isSome then
    (conv : List (String × List Message)).map (fun p => if p.1 == uid then (uid, h) else p)
  else (conv : List (String × List Message)) ++ [(uid, h)]

/-- The stored history of `uid`, defaulting to empty — the view the spec calls
`get_context` reads. -/
def histOf (conv : ConvStore) (uid : String) : List Message :=
  (lookupConv conv uid).getD []

/-- Model of `Agent._get_conversation`: create an empty conversation for the user when
absent (a mutation of the dict), then return the store and the user's history. -/
def getConversation (conv : ConvStore) (uid : String) : ConvStore × List Message :=
  match lookupConv conv uid with
  | none => (setConv conv uid [], [])
  | some h => (conv, h)

/-- Python slice `l[-n:]`: the last `n` elements for `n ≥ 1`, but the WHOLE list
when `n = 0` (since `-0 = 0` and `l[0:]` is all of `l`). -/
def pySliceLast {α : Type} (n : Nat) (l : List α) : List α :=
  if n = 0 then l else l.drop (l.length - n)

/-- Model of `Agent._add_to_history`: fetch-or-create the history, append the new entry
(the in-place `list.append`), and when the length exceeds `max_history` reassign
the trimmed slice `history[-max_history:]`. -/
def addToHistory (maxH : Nat) (conv : ConvStore) (uid role content : String)
    (ts : Nat) : ConvStore :=
  let g := getConversation conv uid
  let history := g.2 ++ [Message.mk role content ts]
  if maxH < history.length then setConv g.1 uid (pySliceLast maxH history)
  else setConv g.1 uid history

/-- The stored history after appending `m` and trimming, as a function of the
previous stored history: the value `_add_to_history` leaves under the user's key. -/
def trimAppend (maxH : Nat) (h : List Message) (m : Message) : List Message :=
  if maxH < (h ++ [m]).length then pySliceLast maxH (h ++ [m]) else h ++ [m]

/-- Model of `Agent.clear_history`: delete the user's key when present, otherwise leave the
store untouched (and raise nothing). -/
def clearHistory (conv : ConvStore) (uid : String) : ConvStore :=
  if ((conv : List (String × List Message)).find? (fun p => p.1 == uid)).isSome then
    (conv : List (String × List Message)).filter (fun p => !(p.1 == uid))
  else conv

/-- The read-only context fetch (`_get_conversation`'s returned sequence; the spec's
`get_context`): the stored sequence, empty when the user has no conversation. -/
def getContext (conv : ConvStore) (uid : String) : List Message :=
  (getConversation conv uid).2

/-- State of the `Agent`: the router, the `max_history` bound, and the store. -/
structure AgentState where
  router : RouterState
  maxHistory : Nat
  conversations : ConvStore

/-- A registered notification hook (`Agent._message_handlers` entry): receives
`(user_id, message, response)` and either returns or raises a stringified error. -/
def Hook : Type := String → String → RouterResponse → Except String Unit

/-- The handler loop at the end of `Agent.process_message`: every handler is
awaited with `(user_id, message, response)` inside a `try`, and a raising handler
only contributes a logged error. Returns the invocation records in order and the
logged errors in order. -/
def runHooks (handlers : List Hook) (uid message : String) (resp : RouterResponse) :
    List (String × String × RouterResponse) × List String :=
  (handlers.map (fun _ => (uid, message, resp)),
   handlers.foldl
     (fun acc h =>
       match h uid message resp with
       | Except.error e => acc ++ [e]
       | Except.ok _ => acc) [])

/-- Result of one `Agent.process_message` call: the returned response dict, the
conversation store afterwards, instrumentation counting adapter invocations,
the arguments of the `router.generate` call when one was issued, and the hook
invocations and logged hook errors. -/
structure ProcessOutcome where
  resp : RouterResponse
  conversations : ConvStore
  geminiCalls : Nat
  ollamaCalls : Nat
  routerArgs : Option (String × List Message × Option String)
  hookCalls : List (String × String × RouterResponse)
  hookErrors : List String

/-- A synthetic system response dict `{text, model: "system", success: True}`. -/
def systemResponse (text : String) : RouterResponse :=
  { text := text, model := ("system"), modelVersion := none,
    success := true, fallback := false, error := none }

/-- The `/status` text assembled by `Agent._handle_status_command` from the
settings, adapter availability, and the number of active conversations. -/
def statusText (st : AgentState) : String :=
  ("**OpenClaw Status**\n\n🤖 **Models**\n- Ollama (") ++ st.router.ollamaModel ++ ("): ")
    ++ (if st.router.ollamaPresent then ("✅ Available") else ("❌ Not configured"))
    ++ ("\n- Gemini (") ++ st.router.geminiModel ++ ("): ")
    ++ (if st.router.geminiConfigured then ("✅ Available") else ("❌ Not configured"))
    ++ ("\n\n⚙️ **Configuration**\n- Complexity Threshold: ")
    ++ toString st.router.complexityThreshold
    ++ ("\n- Max History: ") ++ toString st.maxHistory
    ++ ("\n- Active Conversations: ")
    ++ toString (st.conversations : List (String × List Message)).length

/-- Model of `Agent._handle_model_command`: parse `/model <name> <message...>`; short or
invalid forms return a system response without touching history or providers;
otherwise append the parsed message, fetch context excluding it, and call the
router with the forced model. The handler registers no hook invocations: its
response is returned directly by `process_message`. -/
def handleModelCommand (st : AgentState) (geminiResult ollamaResult : CallResult)
    (message uid : String) (tsU tsA : Nat) : ProcessOutcome :=
  let parts := pyWords (pyStrip message)
  if parts.length < 2 then
    { resp := systemResponse ("Usage: /model [ollama|gemini] <message>"),
      conversations := st.conversations, geminiCalls := 0, ollamaCalls := 0,
      routerArgs := none, hookCalls := [], hookErrors := [] }
  else
    let model := pyLower (parts.getD 1 (""))
    if ¬(model = ("ollama") ∨ model = ("gemini")) then
      { resp := systemResponse ("Invalid model. Use \x27ollama\x27 or \x27gemini\x27."),
        conversations := st.conversations, geminiCalls := 0, ollamaCalls := 0,
        routerArgs := none, hookCalls := [], hookErrors := [] }
    else
      let actualMessage := if 2 < parts.length then String.intercalate (" ") (parts.drop 2) else ("")
      if actualMessage = ("") then
        { resp := systemResponse (("Model set to ") ++ model ++ (". Now send your message.")),
          conversations := st.conversations, geminiCalls := 0, ollamaCalls := 0,
          routerArgs := none, hookCalls := [], hookErrors := [] }
      else
        let conv1 := addToHistory st.maxHistory st.conversations uid ("user") actualMessage tsU
        let context := (getContext conv1 uid).dropLast
        let gen := generate st.router geminiResult ollamaResult actualMessage context (some model)
        let conv2 := if gen.resp.success then
            addToHistory st.maxHistory conv1 uid ("assistant") gen.resp.text tsA
          else conv1
        { resp := gen.resp, conversations := conv2,
          geminiCalls := gen.geminiCalls, ollamaCalls := gen.ollamaCalls,
          routerArgs := some (actualMessage, context, some model),
          hookCalls := [], hookErrors := [] }

/-- Model of `Agent.process_message`: dispatch on the trimmed, lower-cased message
(`/clear`, `/status`, `/model `), each command returning before the handler loop;
otherwise append the user message, fetch the context excluding it, call the
router with no force, append the assistant reply on success, and run the hooks.
`tsU` and `tsA` are the instants stamped on the two potential history appends. -/
def processMessage (st : AgentState) (handlers : List Hook)
    (geminiResult ollamaResult : CallResult)
    (message uid : String) (tsU tsA : Nat) : ProcessOutcome :=
  let cmd := pyLower (pyStrip message)
  if cmd = ("/clear") then
    { resp := systemResponse ("Conversation history cleared."),
      conversations := clearHistory st.conversations uid,
      geminiCalls := 0, ollamaCalls := 0, routerArgs := none,
      hookCalls := [], hookErrors := [] }
  else if cmd = ("/status") then
    { resp := systemResponse (statusText st), conversations := st.conversations,
      geminiCalls := 0, ollamaCalls := 0, routerArgs := none,
      hookCalls := [], hookErrors := [] }
  else if pyStartsWith cmd ("/model ") then
    handleModelCommand st geminiResult ollamaResult message uid tsU tsA
  else
    let conv1 := addToHistory st.maxHistory st.conversations uid ("user") message tsU
    let context := (getContext conv1 uid).dropLast
    let gen := generate st.router geminiResult ollamaResult message context none
    let conv2 := if gen.resp.success then
        addToHistory st.maxHistory conv1 uid ("assistant") gen.resp.text tsA
      else conv1
    let hooks := runHooks handlers uid message gen.resp
    { resp := gen.resp, conversations := conv2,
      geminiCalls := gen.geminiCalls, ollamaCalls := gen.ollamaCalls,
      routerArgs := some (message, context, none),
      hookCalls := hooks.1, hookErrors := hooks.2 }

section RouterLemmas

lemma selectBackend_force_gemini (st : RouterState) (msg : String) (ctx : List Message)
    (h : st.geminiConfigured = true) :
    selectBackend st msg ctx (some ("gemini")) = true := by
  simp [selectBackend, h]

lemma selectBackend_force_ollama (st : RouterState) (msg : String) (ctx : List Message) :
    selectBackend st msg ctx (some ("ollama")) = false := by
  have h1 : ((some ("ollama") : Option String) == some ("gemini")) = false := by decide
  have h2 : ((some ("ollama") : Option String) == some ("ollama")) = true := by decide
  simp [selectBackend, h1, h2]

lemma selectBackend_none (st : RouterState) (msg : String) (ctx : List Message) :
    selectBackend st msg ctx none = shouldUseGemini st msg ctx := by
  have h1 : ((none : Option String) == some ("gemini")) = false := by decide
  have h2 : ((none : Option String) == some ("ollama")) = false := by decide
  simp [selectBackend, h1, h2]

lemma selectBackend_gemini_unconfigured (st : RouterState) (msg : String) (ctx : List Message)
    (hg : st.geminiConfigured = false) :
    selectBackend st msg ctx (some ("gemini")) = shouldUseGemini st msg ctx := by
  have h2 : ((some ("gemini") : Option String) == some ("ollama")) = false := by decide
  simp [selectBackend, hg, h2]

lemma shouldUseGemini_eq (st : RouterState) (msg : String) (ctx : List Message) :
    shouldUseGemini st msg ctx =
      (st.geminiConfigured &&
        decide (st.complexityThreshold ≤ calculateComplexity st.triggerKeywords msg ctx)) := by
  cases hg : st.geminiConfigured <;> simp [shouldUseGemini, hg]

lemma generate_ok_ok (st : RouterState) (gt ot msg : String) (ctx : List Message)
    (f : Option String) :
    generate st (CallResult.ok gt) (CallResult.ok ot) msg ctx f =
      (if selectBackend st msg ctx f then
        { resp := { text := gt, model := ("gemini"), modelVersion := some st.geminiModel,
                    success := true, fallback := false, error := none },
          geminiCalls := 1, ollamaCalls := 0 }
      else
        { resp := { text := ot, model := ("ollama"), modelVersion := some st.ollamaModel,
                    success := true, fallback := false, error := none },
          geminiCalls := 0, ollamaCalls := 1 }) := by
  cases h : selectBackend st msg ctx f <;> simp [generate, h]

lemma generate_congr_force (st : RouterState) (gr orr : CallResult) (msg : String)
    (ctx : List Message) (f1 f2 : Option String)
    (h : selectBackend st msg ctx f1 = selectBackend st msg ctx f2) :
    generate st gr orr msg ctx f1 = generate st gr orr msg ctx f2 := by
  unfold generate
  rw [h]

end RouterLemmas

/-- Example router state used by concrete witnesses: gemini configured, default
threshold 500, one trigger keyword. -/
def stEx : RouterState :=
  { geminiConfigured := true, ollamaPresent := true, triggerKeywords := [("analyze")],
    complexityThreshold := 500, ollamaModel := ("llama3.2"), geminiModel := ("gemini-1.5-pro") }

/-- Example router state used by concrete witnesses: gemini NOT configured. -/
def stNoG : RouterState :=
  { geminiConfigured := false, ollamaPresent := true, triggerKeywords := [("analyze")],
    complexityThreshold := 500, ollamaModel := ("llama3.2"), geminiModel := ("gemini-1.5-pro") }

/-- Example agent state used by concrete witnesses: empty store, history bound 20. -/
def agEx : AgentState := { router := stEx, maxHistory := 20, conversations := [] }

/-- C1: for every message, context, and force argument, `ModelRouter.generate`
selects the backend by the documented policy — `force = gemini` with the cloud
client configured uses cloud; `force = ollama` uses local unconditionally (even
when cloud is configured and the score reaches the threshold); with no force it
uses cloud iff cloud is configured and the complexity score is at or above the
threshold, local otherwise. Observed through the `model` field of the response
when the selected adapter succeeds. -/
theorem c1_routing_policy (st : RouterState) (msg : String) (ctx : List Message)
    (gt ot : String) :
    (st.geminiConfigured = true →
      (generate st (CallResult.ok gt) (CallResult.ok ot) msg ctx (some ("gemini"))).resp.model
        = ("gemini"))
    ∧ (generate st (CallResult.ok gt) (CallResult.ok ot) msg ctx (some ("ollama"))).resp.model
        = ("ollama")
    ∧ ((generate st (CallResult.ok gt) (CallResult.ok ot) msg ctx none).resp.model = ("gemini")
        ↔ st.geminiConfigured = true ∧
            st.complexityThreshold ≤ calculateComplexity st.triggerKeywords msg ctx)
    ∧ ((generate st (CallResult.ok gt) (CallResult.ok ot) msg ctx none).resp.model = ("ollama")
        ↔ ¬(st.geminiConfigured = true ∧
            st.complexityThreshold ≤ calculateComplexity st.triggerKeywords msg ctx)) := by
  have hgo : (("gemini") : String) ≠ ("ollama") := by decide
  refine ⟨?_, ?_, ?_, ?_⟩
  · intro h
    rw [generate_ok_ok, selectBackend_force_gemini st msg ctx h]
    simp
  · rw [generate_ok_ok, selectBackend_force_ollama st msg ctx]
    simp
  · rw [generate_ok_ok, selectBackend_none, shouldUseGemini_eq]
    cases hg : st.geminiConfigured <;>
      cases hs : decide (st.complexityThreshold ≤ calculateComplexity st.triggerKeywords msg ctx) <;>
      simp_all
  · rw [generate_ok_ok, selectBackend_none, shouldUseGemini_eq]
    cases hg : st.geminiConfigured <;>
      cases hs : decide (st.complexityThreshold ≤ calculateComplexity st.triggerKeywords msg ctx) <;>
      simp_all

/-- C1 witness: a configured router at threshold 500; the short message scores
below the threshold, so the unforced call picks local while forcing picks each. -/
theorem c1_routing_policy_witness :
    ((generate stEx (CallResult.ok ("g")) (CallResult.ok ("o")) ("hi") [] (some ("gemini"))).resp.model
      = ("gemini"))
    ∧ ((generate stEx (CallResult.ok ("g")) (CallResult.ok ("o")) ("hi") [] (some ("ollama"))).resp.model
      = ("ollama"))
    ∧ ((generate stEx (CallResult.ok ("g")) (CallResult.ok ("o")) ("hi") [] none).resp.model
      = ("ollama")) := by
  refine ⟨(c1_routing_policy stEx ("hi") [] ("g") ("o")).1 rfl,
          (c1_routing_policy stEx ("hi") [] ("g") ("o")).2.1, ?_⟩
  exact ((c1_routing_policy stEx ("hi") [] ("g") ("o")).2.2.2).mpr (by decide)

/-- C2: when the selected backend is cloud, the cloud call fails and the local
client exists, `ModelRouter.generate` retries exactly once against the local
adapter (one gemini call, one ollama call); on retry success the response has
`model = "ollama"`, `fallback = true`, `success = true`; on retry failure the
response has `success = false`, carries the original cloud error, and keeps
`model = "gemini"`, the originally selected backend. -/
theorem c2_cloud_fallback (st : RouterState) (msg : String) (ctx : List Message)
    (force : Option String) (e t e2 : String)
    (hsel : selectBackend st msg ctx force = true)
    (holl : st.ollamaPresent = true) :
    (generate st (CallResult.err e) (CallResult.ok t) msg ctx force =
      { resp := { text := t, model := ("ollama"), modelVersion := some st.ollamaModel,
                  success := true, fallback := true, error := none },
        geminiCalls := 1, ollamaCalls := 1 })
    ∧ (generate st (CallResult.err e) (CallResult.err e2) msg ctx force =
      { resp := { text := apologyText, model := ("gemini"), modelVersion := none,
                  success := false, fallback := false, error := some e },
        geminiCalls := 1, ollamaCalls := 1 }) := by
  constructor <;> simp [generate, hsel, holl]

/-- C2 witness: a configured router forced to cloud whose cloud call raises;
the single local retry succeeds in the first scenario and fails in the second. -/
theorem c2_cloud_fallback_witness :
    (generate stEx (CallResult.err ("boom")) (CallResult.ok ("o")) ("hi") [] (some ("gemini")) =
      { resp := { text := ("o"), model := ("ollama"), modelVersion := some ("llama3.2"),
                  success := true, fallback := true, error := none },
        geminiCalls := 1, ollamaCalls := 1 })
    ∧ (generate stEx (CallResult.err ("boom")) (CallResult.err ("b2")) ("hi") [] (some ("gemini")) =
      { resp := { text := apologyText, model := ("gemini"), modelVersion := none,
                  success := false, fallback := false, error := some ("boom") },
        geminiCalls := 1, ollamaCalls := 1 }) :=
  c2_cloud_fallback stEx ("hi") [] (some ("gemini")) ("boom") ("o") ("b2") (by decide) rfl

/-- C5: when the selected backend is local and the local call fails,
`ModelRouter.generate` performs no retry and no fallback to cloud (zero gemini
calls, a single ollama call) and returns `success = false` carrying the error. -/
theorem c5_local_failure_terminal (st : RouterState) (gr : CallResult) (msg : String)
    (ctx : List Message) (force : Option String) (e : String)
    (hsel : selectBackend st msg ctx force = false) :
    generate st gr (CallResult.err e) msg ctx force =
      { resp := { text := apologyText, model := ("ollama"), modelVersion := none,
                  success := false, fallback := false, error := some e },
        geminiCalls := 0, ollamaCalls := 1 } := by
  simp [generate, hsel]

/-- C5 witness: an unforced short message on a configured router scores below the
threshold, local is selected, and its failure is terminal. -/
theorem c5_local_failure_terminal_witness :
    generate stEx (CallResult.ok ("g")) (CallResult.err ("down")) ("hi") [] none =
      { resp := { text := apologyText, model := ("ollama"), modelVersion := none,
                  success := false, fallback := false, error := some ("down") },
        geminiCalls := 0, ollamaCalls := 1 } :=
  c5_local_failure_terminal stEx (CallResult.ok ("g")) ("hi") [] none ("down") (by decide)

/-- C10: calling `ModelRouter.generate` with `force = "gemini"` while the cloud
client is not configured does not fail: the forced branch falls through to the
unforced complexity policy, which, cloud being absent, always selects local, so
the call behaves exactly as an unforced call. -/
theorem c10_force_gemini_unconfigured (st : RouterState) (gr orr : CallResult)
    (msg : String) (ctx : List Message)
    (hg : st.geminiConfigured = false) :
    selectBackend st msg ctx (some ("gemini")) = false
    ∧ generate st gr orr msg ctx (some ("gemini")) = generate st gr orr msg ctx none := by
  have hsel : selectBackend st msg ctx (some ("gemini")) = shouldUseGemini st msg ctx :=
    selectBackend_gemini_unconfigured st msg ctx hg
  have hfalse : shouldUseGemini st msg ctx = false := by
    simp [shouldUseGemini, hg]
  refine ⟨hsel.trans hfalse, generate_congr_force st gr orr msg ctx _ _ ?_⟩
  rw [hsel, selectBackend_none]

/-- C10 witness: an unconfigured router forced to gemini selects local and the
outcome coincides with the unforced call. -/
theorem c10_force_gemini_unconfigured_witness :
    selectBackend stNoG ("analyze this please explain") [] (some ("gemini")) = false
    ∧ generate stNoG (CallResult.ok ("g")) (CallResult.ok ("o"))
        ("analyze this please explain") [] (some ("gemini")) =
      generate stNoG (CallResult.ok ("g")) (CallResult.ok ("o"))
        ("analyze this please explain") [] none :=
  c10_force_gemini_unconfigured stNoG (CallResult.ok ("g")) (CallResult.ok ("o"))
    ("analyze this please explain") [] rfl

section ScorerLemmas

lemma foldl_count_add {α : Type} (p : α → Bool) (w : Nat) :
    ∀ (l : List α) (s : Nat),
      l.foldl (fun sc a => if p a then sc + w else sc) s = s + w * l.countP p := by
  intro l
  induction l with
  | nil => intro s; simp
  | cons a t ih =>
      intro s
      cases h : p a
      · simp [h, ih, List.countP_cons]
      · simp [h, ih, List.countP_cons]
        ring

lemma countP_congr_local {α : Type} (l : List α) (p q : α → Bool)
    (h : ∀ a ∈ l, p a = q a) : l.countP p = l.countP q := by
  induction l with
  | nil => rfl
  | cons a t ih =>
      have ha := h a (by simp)
      have ht : ∀ a ∈ t, p a = q a := fun a hm => h a (by simp [hm])
      simp [List.countP_cons, ha, ih ht]

lemma keywordFold_eq (kws : List String) (low : String) (s : Nat) :
    kws.foldl (fun sc k => if subStr k low then sc + 200 else sc) s
      = s + 200 * kws.countP (fun k => subStr k low) :=
  foldl_count_add (fun k => subStr k low) 200 kws s

lemma patternFold_eq (ps : List (List Char → Bool)) (low : List Char) (s : Nat) :
    ps.foldl (fun sc p => if p low then sc + 100 else sc) s
      = s + 100 * ps.countP (fun p => p low) :=
  foldl_count_add (fun p => p low) 100 ps s

end ScorerLemmas

/-- C4: the complexity score equals the whitespace word count of the message,
plus 200 per configured trigger keyword whose lower-cased form occurs as a
substring of the lower-cased message (keywords counted independently), plus 150
if the message contains a code-fence marker or code-definition token, plus 100
per complex-question regex pattern that matches (patterns counted
independently), plus the integer division by 10 of the total word count of the
context messages. The hypothesis that every configured keyword is already
lower-cased holds for every keyword list `Settings.gemini_keywords_list`
produces. The score is a `Nat`, hence non-negative, and the definition is a
pure function, with the base word count never subtracted. -/
theorem c4_complexity_formula (kws : List String) (msg : String) (ctx : List Message)
    (hk : ∀ k ∈ kws, pyLower k = k) :
    calculateComplexity kws msg ctx =
      (pyWords msg).length
        + 200 * kws.countP (fun k => subStr (pyLower k) (pyLower msg))
        + (if subStr ("```") msg || subStr ("def ") msg || subStr ("function") msg
           then 150 else 0)
        + 100 * complexPatterns.countP (fun p => p (pyLower msg).data)
        + (ctx.map (fun m => (pyWords m.content).length)).sum / 10
    ∧ (pyWords msg).length ≤ calculateComplexity kws msg ctx := by
  have h3 : kws.countP (fun k => subStr k (pyLower msg))
      = kws.countP (fun k => subStr (pyLower k) (pyLower msg)) :=
    countP_congr_local kws _ _ (fun k hkm => by rw [hk k hkm])
  have h4 : (if ctx.isEmpty then 0
        else (ctx.map (fun m => (pyWords m.content).length)).sum / 10)
      = (ctx.map (fun m => (pyWords m.content).length)).sum / 10 := by
    cases ctx <;> simp
  have hmain : calculateComplexity kws msg ctx =
      (pyWords msg).length
        + 200 * kws.countP (fun k => subStr (pyLower k) (pyLower msg))
        + (if subStr ("```") msg || subStr ("def ") msg || subStr ("function") msg
           then 150 else 0)
        + 100 * complexPatterns.countP (fun p => p (pyLower msg).data)
        + (ctx.map (fun m => (pyWords m.content).length)).sum / 10 := by
    unfold calculateComplexity
    dsimp only
    rw [keywordFold_eq, patternFold_eq, h3, h4]
  refine ⟨hmain, ?_⟩
  rw [hmain]
  exact (((Nat.le_add_right _ _).trans (Nat.le_add_right _ _)).trans
    (Nat.le_add_right _ _)).trans (Nat.le_add_right _ _)

/-- C4 witness: a lower-cased keyword list and a concrete message and context
instantiate the formula; the hypothesis is discharged by evaluation. -/
theorem c4_complexity_formula_witness :
    calculateComplexity [("analyze")] ("please analyze this")
        [Message.mk ("user") ("one two three four five six seven eight nine ten") 0] =
      (pyWords ("please analyze this")).length
        + 200 * ([("analyze")].countP
            (fun k => subStr (pyLower k) (pyLower ("please analyze this"))))
        + (if subStr ("```") ("please analyze this")
              || subStr ("def ") ("please analyze this")
              || subStr ("function") ("please analyze this") then 150 else 0)
        + 100 * complexPatterns.countP (fun p => p (pyLower ("please analyze this")).data)
        + ([Message.mk ("user") ("one two three four five six seven eight nine ten") 0].map
            (fun m => (pyWords m.content).length)).sum / 10
    ∧ (pyWords ("please analyze this")).length ≤
        calculateComplexity [("analyze")] ("please analyze this")
          [Message.mk ("user") ("one two three four five six seven eight nine ten") 0] :=
  c4_complexity_formula [("analyze")] ("please analyze this")
    [Message.mk ("user") ("one two three four five six seven eight nine ten") 0]
    (by decide)

section StoreLemmas

lemma find?_map_replace (conv : ConvStore) (uid : String) (h : List Message)
    (hf : (List.find? (fun p => p.1 == uid) conv).isSome) :
    List.find? (fun p => p.1 == uid)
        (conv.map (fun p => if p.1 == uid then (uid, h) else p)) = some (uid, h) := by
  induction conv with
  | nil => simp at hf
  | cons a t ih =>
      cases ha : (a.1 == uid)
      · have ht : (List.find? (fun p => p.1 == uid) t).isSome := by
          rw [List.find?_cons_of_neg _ (by simp [ha])] at hf
          exact hf
        rw [List.map_cons]
        rw [if_neg (by simp [ha])]
        rw [List.find?_cons_of_neg _ (by simp [ha])]
        exact ih ht
      · rw [List.map_cons, if_pos (by simp [ha])]
        rw [List.find?_cons_of_pos _ (by simp)]

lemma lookupConv_append_absent (conv : ConvStore) (uid : String) (h : List Message)
    (hf : List.find? (fun p => p.1 == uid) conv = none) :
    lookupConv (conv ++ [(uid, h)]) uid = some h := by
  induction conv with
  | nil =>
      unfold lookupConv
      rw [List.nil_append, List.find?_cons_of_pos _ (by simp)]
      rfl
  | cons a t ih =>
      cases ha : (a.1 == uid)
      · rw [List.find?_cons_of_neg _ (by simp [ha])] at hf
        unfold lookupConv
        rw [List.cons_append, List.find?_cons_of_neg _ (by simp [ha])]
        exact ih hf
      · rw [List.find?_cons_of_pos _ (by simp [ha])] at hf
        exact absurd hf (by simp)

lemma lookupConv_setConv_self (conv : ConvStore) (uid : String) (h : List Message) :
    lookupConv (setConv conv uid h) uid = some h := by
  unfold setConv
  by_cases hf : (List.find? (fun p => p.1 == uid) conv).isSome
  · rw [if_pos hf]
    unfold lookupConv
    rw [find?_map_replace conv uid h hf]
    rfl
  · rw [if_neg hf]
    have hn : List.find? (fun p => p.1 == uid) conv = none := by
      cases hc : List.find? (fun p => p.1 == uid) conv
      · rfl
      · rw [hc] at hf; simp at hf
    exact lookupConv_append_absent conv uid h hn

lemma histOf_setConv (conv : ConvStore) (uid : String) (h : List Message) :
    histOf (setConv conv uid h) uid = h := by
  unfold histOf
  rw [lookupConv_setConv_self]
  rfl

lemma getContext_eq_histOf (conv : ConvStore) (uid : String) :
    getContext conv uid = histOf conv uid := by
  unfold getContext getConversation histOf
  cases hl : lookupConv conv uid <;> simp

lemma addToHistory_eq (maxH : Nat) (conv : ConvStore) (uid role content : String) (ts : Nat) :
    addToHistory maxH conv uid role content ts
      = setConv (getConversation conv uid).1 uid
          (trimAppend maxH (getConversation conv uid).2 (Message.mk role content ts)) := by
  unfold addToHistory trimAppend
  dsimp only
  rw [apply_ite (setConv (getConversation conv uid).1 uid)]

lemma addToHistory_histOf (maxH : Nat) (conv : ConvStore) (uid role content : String)
    (ts : Nat) :
    histOf (addToHistory maxH conv uid role content ts) uid
      = trimAppend maxH (histOf conv uid) (Message.mk role content ts) := by
  rw [addToHistory_eq, histOf_setConv]
  have hg : (getConversation conv uid).2 = histOf conv uid := by
    unfold getConversation histOf
    cases hl : lookupConv conv uid <;> simp
  rw [hg]

lemma find?_filter_not (l : ConvStore) (uid : String) :
    List.find? (fun p => p.1 == uid) (l.filter (fun p => !(p.1 == uid))) = none := by
  induction l with
  | nil => rfl
  | cons a t ih =>
      cases ha : (a.1 == uid)
      · rw [List.filter_cons, if_pos (by simp [ha])]
        rw [List.find?_cons_of_neg _ (by simp [ha])]
        exact ih
      · rw [List.filter_cons, if_neg (by simp [ha])]
        exact ih

lemma lookupConv_clearHistory_self (conv : ConvStore) (uid : String) :
    lookupConv (clearHistory conv uid) uid = none := by
  unfold clearHistory
  by_cases hf : (List.find? (fun p => p.1 == uid) conv).isSome
  · rw [if_pos hf]
    unfold lookupConv
    rw [find?_filter_not conv uid]
    rfl
  · rw [if_neg hf]
    unfold lookupConv
    cases hc : List.find? (fun p => p.1 == uid) conv
    · rfl
    · rw [hc] at hf; simp at hf

/-- The stored suffix after appending `m` to a stored window of `msgs`, for a
positive bound, is the stored window of `msgs ++ [m]`. -/
lemma trimAppend_window (maxH : Nat) (hm : 1 ≤ maxH) (msgs : List Message) (m : Message) :
    trimAppend maxH (msgs.drop (msgs.length - maxH)) m
      = (msgs ++ [m]).drop ((msgs ++ [m]).length - maxH) := by
  have hmlen : (msgs ++ [m]).length = msgs.length + 1 := by simp
  by_cases hle : msgs.length ≤ maxH
  · have hz : msgs.length - maxH = 0 := Nat.sub_eq_zero_of_le hle
    rw [hz, List.drop_zero]
    unfold trimAppend
    by_cases ht : maxH < (msgs ++ [m]).length
    · rw [if_pos ht]
      unfold pySliceLast
      rw [if_neg (by omega)]
    · rw [if_neg ht]
      have : (msgs ++ [m]).length - maxH = 0 := by omega
      rw [this, List.drop_zero]
  · have hgt : maxH < msgs.length := by omega
    have hXlen : (msgs.drop (msgs.length - maxH)).length = maxH := by
      rw [List.length_drop]
      omega
    unfold trimAppend
    rw [if_pos (by simp [hXlen])]
    unfold pySliceLast
    rw [if_neg (by omega)]
    have h1 : (msgs.drop (msgs.length - maxH) ++ [m]).length - maxH = 1 := by
      simp [hXlen]
    rw [h1]
    rw [List.drop_append_of_le_length (by omega)]
    rw [List.drop_drop]
    rw [List.drop_append_of_le_length (by omega), hmlen]
    have h2 : msgs.length - maxH + 1 = msgs.length + 1 - maxH := by omega
    rw [h2]

lemma foldAppend_histOf (maxH : Nat) (hm : 1 ≤ maxH) (uid : String) :
    ∀ (entries : List Message) (conv : ConvStore) (msgs : List Message),
      histOf conv uid = msgs.drop (msgs.length - maxH) →
      histOf (entries.foldl
          (fun c m => addToHistory maxH c uid m.role m.content m.timestamp) conv) uid
        = (msgs ++ entries).drop ((msgs ++ entries).length - maxH) := by
  intro entries
  induction entries with
  | nil =>
      intro conv msgs h
      simpa using h
  | cons e t ih =>
      intro conv msgs h
      rw [List.foldl_cons]
      have he : Message.mk e.role e.content e.timestamp = e := rfl
      have step : histOf (addToHistory maxH conv uid e.role e.content e.timestamp) uid
          = (msgs ++ [e]).drop ((msgs ++ [e]).length - maxH) := by
        rw [addToHistory_histOf, h, he]
        exact trimAppend_window maxH hm msgs e
      have hres := ih _ _ step
      have hassoc : (msgs ++ [e]) ++ t = msgs ++ (e :: t) := by simp
      rw [hassoc] at hres
      exact hres

end StoreLemmas

/-- C3 counterexample: the claim fails at the admissible configuration
`max_history = 0`. Python `history[-0:]` is `history[0:]`, the whole list, so a
single append to a fresh conversation leaves one stored entry, exceeding the
configured bound 0. -/
theorem c3_cex_max_history_zero :
    histOf (addToHistory 0 ([] : ConvStore) ("u") ("user") ("hi") 0) ("u")
        = [Message.mk ("user") ("hi") 0]
    ∧ ¬([Message.mk ("user") ("hi") 0].length ≤ 0) := by
  constructor
  · rfl
  · decide

/-- C3 (amended: for a configured `max_history ≥ 1`): for every user and every
sequence of history-append operations from the initial empty store, the stored
conversation equals exactly the suffix of the most recent `max_history` appended
entries in original insertion order (trimming removes from the front), and in
particular its length never exceeds `max_history`. -/
theorem c3_history_bound (maxH : Nat) (hm : 1 ≤ maxH) (uid : String)
    (entries : List Message) :
    histOf (entries.foldl
        (fun c m => addToHistory maxH c uid m.role m.content m.timestamp)
        ([] : ConvStore)) uid
      = entries.drop (entries.length - maxH)
    ∧ (histOf (entries.foldl
        (fun c m => addToHistory maxH c uid m.role m.content m.timestamp)
        ([] : ConvStore)) uid).length ≤ maxH := by
  have h0 : histOf ([] : ConvStore) uid
      = ([] : List Message).drop (([] : List Message).length - maxH) := by
    rw [List.drop_nil]
    rfl
  have h := foldAppend_histOf maxH hm uid entries ([] : ConvStore) [] h0
  rw [List.nil_append] at h
  refine ⟨h, ?_⟩
  rw [h, List.length_drop]
  omega

/-- C3 witness: three appends under bound 2 retain exactly the last two entries. -/
theorem c3_history_bound_witness :
    histOf ([Message.mk ("user") ("a") 0, Message.mk ("assistant") ("b") 1,
        Message.mk ("user") ("c") 2].foldl
        (fun c m => addToHistory 2 c ("u") m.role m.content m.timestamp)
        ([] : ConvStore)) ("u")
      = [Message.mk ("user") ("a") 0, Message.mk ("assistant") ("b") 1,
          Message.mk ("user") ("c") 2].drop
          ([Message.mk ("user") ("a") 0, Message.mk ("assistant") ("b") 1,
            Message.mk ("user") ("c") 2].length - 2)
    ∧ (histOf ([Message.mk ("user") ("a") 0, Message.mk ("assistant") ("b") 1,
        Message.mk ("user") ("c") 2].foldl
        (fun c m => addToHistory 2 c ("u") m.role m.content m.timestamp)
        ([] : ConvStore)) ("u")).length ≤ 2 :=
  c3_history_bound 2 (by decide) ("u")
    [Message.mk ("user") ("a") 0, Message.mk ("assistant") ("b") 1,
      Message.mk ("user") ("c") 2]

/-- C8: for any prior store state, `clear(user_id)` followed by a context fetch
for that user returns the empty sequence; clear removes the user's key entirely
when present and leaves the store untouched (raising nothing) when absent. -/
theorem c8_clear_then_empty (conv : ConvStore) (uid : String) :
    getContext (clearHistory conv uid) uid = []
    ∧ lookupConv (clearHistory conv uid) uid = none
    ∧ (lookupConv conv uid = none → clearHistory conv uid = conv) := by
  have h1 := lookupConv_clearHistory_self conv uid
  refine ⟨?_, h1, ?_⟩
  · rw [getContext_eq_histOf]
    unfold histOf
    rw [h1]
    rfl
  · intro hn
    have hf : List.find? (fun p => p.1 == uid) conv = none := by
      unfold lookupConv at hn
      cases hc : List.find? (fun p => p.1 == uid) conv
      · rfl
      · rw [hc] at hn; simp at hn
    unfold clearHistory
    rw [if_neg (by simp [hf])]

/-- C8 witness: clearing a store that holds one conversation for the user, and
clearing an empty store where the user is absent. -/
theorem c8_clear_then_empty_witness :
    getContext (clearHistory [(("u"), [Message.mk ("user") ("hi") 0])] ("u")) ("u") = []
    ∧ lookupConv (clearHistory [(("u"), [Message.mk ("user") ("hi") 0])] ("u")) ("u") = none
    ∧ clearHistory ([] : ConvStore) ("u") = ([] : ConvStore) :=
  ⟨(c8_clear_then_empty [(("u"), [Message.mk ("user") ("hi") 0])] ("u")).1,
   (c8_clear_then_empty [(("u"), [Message.mk ("user") ("hi") 0])] ("u")).2.1,
   (c8_clear_then_empty ([] : ConvStore) ("u")).2.2 rfl⟩

section OrchestratorLemmas

/-- The else-branch of `process_message` (the normal generation path), named so
the dispatch reduction can be stated once and reused. -/
def normalOutcome (st : AgentState) (handlers : List Hook) (gr orr : CallResult)
    (message uid : String) (tsU tsA : Nat) : ProcessOutcome :=
  let conv1 := addToHistory st.maxHistory st.conversations uid ("user") message tsU
  let context := (getContext conv1 uid).dropLast
  let gen := generate st.router gr orr message context none
  let conv2 := if gen.resp.success then
      addToHistory st.maxHistory conv1 uid ("assistant") gen.resp.text tsA
    else conv1
  let hooks := runHooks handlers uid message gen.resp
  { resp := gen.resp, conversations := conv2,
    geminiCalls := gen.geminiCalls, ollamaCalls := gen.ollamaCalls,
    routerArgs := some (message, context, none),
    hookCalls := hooks.1, hookErrors := hooks.2 }

lemma processMessage_normal (st : AgentState) (handlers : List Hook) (gr orr : CallResult)
    (message uid : String) (tsU tsA : Nat)
    (h1 : pyLower (pyStrip message) ≠ ("/clear"))
    (h2 : pyLower (pyStrip message) ≠ ("/status"))
    (h3 : pyStartsWith (pyLower (pyStrip message)) ("/model ") = false) :
    processMessage st handlers gr orr message uid tsU tsA
      = normalOutcome st handlers gr orr message uid tsU tsA := by
  unfold processMessage normalOutcome
  rw [if_neg h1, if_neg h2, if_neg (by simp [h3])]

lemma startsWithModel_not_command (s : String)
    (h : pyStartsWith s ("/model ") = true) :
    s ≠ ("/clear") ∧ s ≠ ("/status") := by
  constructor <;> intro he <;> rw [he] at h <;> exact absurd h (by decide)

lemma processMessage_model_dispatch (st : AgentState) (handlers : List Hook)
    (gr orr : CallResult) (message uid : String) (tsU tsA : Nat)
    (h3 : pyStartsWith (pyLower (pyStrip message)) ("/model ") = true) :
    processMessage st handlers gr orr message uid tsU tsA
      = handleModelCommand st gr orr message uid tsU tsA := by
  have hne := startsWithModel_not_command _ h3
  unfold processMessage
  rw [if_neg hne.1, if_neg hne.2, if_pos h3]

lemma handleModelCommand_hookCalls (st : AgentState) (gr orr : CallResult)
    (message uid : String) (tsU tsA : Nat) :
    (handleModelCommand st gr orr message uid tsU tsA).hookCalls = [] := by
  unfold handleModelCommand
  dsimp only
  repeat' split
  all_goals rfl

lemma trimAppend_getLast (maxH : Nat) (h : List Message) (m : Message) :
    (trimAppend maxH h m).getLast? = some m := by
  unfold trimAppend
  by_cases hc : maxH < (h ++ [m]).length
  · rw [if_pos hc]
    unfold pySliceLast
    by_cases h0 : maxH = 0
    · rw [if_pos h0]
      exact List.getLast?_concat _
    · rw [if_neg h0]
      have hk : (h ++ [m]).length - maxH ≤ h.length := by
        simp only [List.length_append, List.length_cons, List.length_nil]
        omega
      rw [List.drop_append_of_le_length hk]
      exact List.getLast?_concat _
  · rw [if_neg hc]
    exact List.getLast?_concat _

end OrchestratorLemmas

/-- C6: on the normal (non-command) path of `process_message`, the user-role
message is appended before the router call — the stored history at call time is
the trim-append of the previous history with the user entry, whose last element
is that entry — the context passed to the router is exactly that history
excluding the just-appended entry (with no forced model), and an
assistant-role entry is appended if and only if the response has
`success = true`. -/
theorem c6_normal_path (st : AgentState) (handlers : List Hook) (gr orr : CallResult)
    (message uid : String) (tsU tsA : Nat)
    (h1 : pyLower (pyStrip message) ≠ ("/clear"))
    (h2 : pyLower (pyStrip message) ≠ ("/status"))
    (h3 : pyStartsWith (pyLower (pyStrip message)) ("/model ") = false) :
    ((processMessage st handlers gr orr message uid tsU tsA).routerArgs
      = some (message,
          (trimAppend st.maxHistory (histOf st.conversations uid)
            (Message.mk ("user") message tsU)).dropLast, none))
    ∧ ((trimAppend st.maxHistory (histOf st.conversations uid)
          (Message.mk ("user") message tsU)).getLast?
        = some (Message.mk ("user") message tsU))
    ∧ ((processMessage st handlers gr orr message uid tsU tsA).resp.success = true →
        histOf (processMessage st handlers gr orr message uid tsU tsA).conversations uid
          = trimAppend st.maxHistory
              (trimAppend st.maxHistory (histOf st.conversations uid)
                (Message.mk ("user") message tsU))
              (Message.mk ("assistant")
                (processMessage st handlers gr orr message uid tsU tsA).resp.text tsA))
    ∧ ((processMessage st handlers gr orr message uid tsU tsA).resp.success = false →
        histOf (processMessage st handlers gr orr message uid tsU tsA).conversations uid
          = trimAppend st.maxHistory (histOf st.conversations uid)
            (Message.mk ("user") message tsU)) := by
  rw [processMessage_normal st handlers gr orr message uid tsU tsA h1 h2 h3]
  have hget : getContext (addToHistory st.maxHistory st.conversations uid ("user") message tsU) uid
      = trimAppend st.maxHistory (histOf st.conversations uid) (Message.mk ("user") message tsU) := by
    rw [getContext_eq_histOf, addToHistory_histOf]
  unfold normalOutcome
  dsimp only
  rw [hget]
  refine ⟨rfl, trimAppend_getLast _ _ _, ?_, ?_⟩
  · intro hs
    rw [hs, if_pos rfl]
    rw [addToHistory_histOf, addToHistory_histOf]
  · intro hs
    rw [hs, if_neg (by simp)]
    rw [addToHistory_histOf]

/-- C6 witness: a plain message on a fresh agent; the router is called with the
empty context and the assistant reply is stored after the user entry. -/
theorem c6_normal_path_witness :
    ((processMessage agEx ([] : List Hook) (CallResult.ok ("g")) (CallResult.ok ("o"))
        ("hi") ("u") 0 1).routerArgs
      = some (("hi"),
          (trimAppend agEx.maxHistory (histOf agEx.conversations ("u"))
            (Message.mk ("user") ("hi") 0)).dropLast, none))
    ∧ ((trimAppend agEx.maxHistory (histOf agEx.conversations ("u"))
          (Message.mk ("user") ("hi") 0)).getLast?
        = some (Message.mk ("user") ("hi") 0))
    ∧ ((processMessage agEx ([] : List Hook) (CallResult.ok ("g")) (CallResult.ok ("o"))
          ("hi") ("u") 0 1).resp.success = true →
        histOf (processMessage agEx ([] : List Hook) (CallResult.ok ("g")) (CallResult.ok ("o"))
            ("hi") ("u") 0 1).conversations ("u")
          = trimAppend agEx.maxHistory
              (trimAppend agEx.maxHistory (histOf agEx.conversations ("u"))
                (Message.mk ("user") ("hi") 0))
              (Message.mk ("assistant")
                (processMessage agEx ([] : List Hook) (CallResult.ok ("g")) (CallResult.ok ("o"))
                  ("hi") ("u") 0 1).resp.text 1))
    ∧ ((processMessage agEx ([] : List Hook) (CallResult.ok ("g")) (CallResult.ok ("o"))
          ("hi") ("u") 0 1).resp.success = false →
        histOf (processMessage agEx ([] : List Hook) (CallResult.ok ("g")) (CallResult.ok ("o"))
            ("hi") ("u") 0 1).conversations ("u")
          = trimAppend agEx.maxHistory (histOf agEx.conversations ("u"))
            (Message.mk ("user") ("hi") 0)) :=
  c6_normal_path agEx ([] : List Hook) (CallResult.ok ("g")) (CallResult.ok ("o"))
    ("hi") ("u") 0 1 (by decide) (by decide) (by decide)

/-- C7 counterexample: the claim that hooks run after EVERY completed exchange,
command exchanges included, is false — a `/clear` exchange with one registered
hook invokes no hook at all, because every command branch of `process_message`
returns before the handler loop. -/
theorem c7_cex_command_skips_hooks :
    (processMessage agEx [fun _ _ _ => Except.ok ()] (CallResult.ok ("g"))
        (CallResult.ok ("o")) ("/clear") ("u") 0 1).hookCalls = []
    ∧ ([fun _ _ _ => Except.ok ()] : List Hook).length = 1 := by
  constructor
  · rfl
  · rfl

/-- C7 (amended): notification hooks are invoked only after normal generation
exchanges — command exchanges (`/clear`, `/status`, `/model`) return without
invoking any hook. On the normal path every registered hook is invoked, in
order, with `(user_id, message, response)`, regardless of other hooks'
failures, and the hooks affect neither the returned response nor the stored
conversations (hook failures are caught and recorded, never propagated). -/
theorem c7_hooks_generation_only (st : AgentState) (handlers : List Hook)
    (gr orr : CallResult) (message uid : String) (tsU tsA : Nat) :
    ((pyLower (pyStrip message) = ("/clear") ∨ pyLower (pyStrip message) = ("/status")
        ∨ pyStartsWith (pyLower (pyStrip message)) ("/model ") = true) →
      (processMessage st handlers gr orr message uid tsU tsA).hookCalls = [])
    ∧ (pyLower (pyStrip message) ≠ ("/clear") → pyLower (pyStrip message) ≠ ("/status") →
        pyStartsWith (pyLower (pyStrip message)) ("/model ") = false →
        ((processMessage st handlers gr orr message uid tsU tsA).hookCalls
            = handlers.map (fun _ => (uid, message,
                (processMessage st handlers gr orr message uid tsU tsA).resp)))
        ∧ (processMessage st handlers gr orr message uid tsU tsA).resp
            = (processMessage st ([] : List Hook) gr orr message uid tsU tsA).resp
        ∧ (processMessage st handlers gr orr message uid tsU tsA).conversations
            = (processMessage st ([] : List Hook) gr orr message uid tsU tsA).conversations) := by
  constructor
  · rintro (hc | hc | hc)
    · unfold processMessage
      rw [if_pos hc]
    · unfold processMessage
      rw [if_neg (by rw [hc]; decide), if_pos hc]
    · rw [processMessage_model_dispatch st handlers gr orr message uid tsU tsA hc]
      exact handleModelCommand_hookCalls st gr orr message uid tsU tsA
  · intro h1 h2 h3
    rw [processMessage_normal st handlers gr orr message uid tsU tsA h1 h2 h3,
        processMessage_normal st ([] : List Hook) gr orr message uid tsU tsA h1 h2 h3]
    exact ⟨rfl, rfl, rfl⟩

/-- C7 witness for the amended claim: a normal message with two hooks, the first
of which raises; both are invoked with the same arguments and the response and
store match a hook-free run. -/
theorem c7_hooks_generation_only_witness :
    ((processMessage agEx [fun _ _ _ => Except.error ("boom"), fun _ _ _ => Except.ok ()]
        (CallResult.ok ("g")) (CallResult.ok ("o")) ("hi") ("u") 0 1).hookCalls
      = ([fun _ _ _ => Except.error ("boom"), fun _ _ _ => Except.ok ()] : List Hook).map
          (fun _ => (("u"), ("hi"),
            (processMessage agEx [fun _ _ _ => Except.error ("boom"), fun _ _ _ => Except.ok ()]
              (CallResult.ok ("g")) (CallResult.ok ("o")) ("hi") ("u") 0 1).resp)))
    ∧ (processMessage agEx [fun _ _ _ => Except.error ("boom"), fun _ _ _ => Except.ok ()]
        (CallResult.ok ("g")) (CallResult.ok ("o")) ("hi") ("u") 0 1).resp
      = (processMessage agEx ([] : List Hook)
          (CallResult.ok ("g")) (CallResult.ok ("o")) ("hi") ("u") 0 1).resp
    ∧ (processMessage agEx [fun _ _ _ => Except.error ("boom"), fun _ _ _ => Except.ok ()]
        (CallResult.ok ("g")) (CallResult.ok ("o")) ("hi") ("u") 0 1).conversations
      = (processMessage agEx ([] : List Hook)
          (CallResult.ok ("g")) (CallResult.ok ("o")) ("hi") ("u") 0 1).conversations :=
  (c7_hooks_generation_only agEx
      [fun _ _ _ => Except.error ("boom"), fun _ _ _ => Except.ok ()]
      (CallResult.ok ("g")) (CallResult.ok ("o")) ("hi") ("u") 0 1).2
    (by decide) (by decide) (by decide)

/-- C9: a model-override command with a recognized backend name and no remaining
message text returns a synthetic system response asking for the message, with
`success = true` (part of `systemResponse`), no history mutation, no provider
call, and no router invocation. -/
theorem c9_model_without_message (st : AgentState) (handlers : List Hook)
    (gr orr : CallResult) (message uid : String) (tsU tsA : Nat) (name : String)
    (h3 : pyStartsWith (pyLower (pyStrip message)) ("/model ") = true)
    (hp : pyWords (pyStrip message) = [("/model"), name])
    (hn : pyLower name = ("ollama") ∨ pyLower name = ("gemini")) :
    ((processMessage st handlers gr orr message uid tsU tsA).resp
      = systemResponse (("Model set to ") ++ pyLower name ++ (". Now send your message.")))
    ∧ (processMessage st handlers gr orr message uid tsU tsA).conversations = st.conversations
    ∧ (processMessage st handlers gr orr message uid tsU tsA).geminiCalls = 0
    ∧ (processMessage st handlers gr orr message uid tsU tsA).ollamaCalls = 0
    ∧ (processMessage st handlers gr orr message uid tsU tsA).routerArgs = none := by
  rw [processMessage_model_dispatch st handlers gr orr message uid tsU tsA h3]
  have hm : handleModelCommand st gr orr message uid tsU tsA =
      { resp := systemResponse (("Model set to ") ++ pyLower name ++ (". Now send your message.")),
        conversations := st.conversations, geminiCalls := 0, ollamaCalls := 0,
        routerArgs := none, hookCalls := [], hookErrors := [] } := by
    have hl1 : ¬(([("/model"), name] : List String).length < 2) := by simp
    have hl2 : ¬(2 < ([("/model"), name] : List String).length) := by simp
    unfold handleModelCommand
    dsimp only
    rw [hp]
    simp only [List.getD_cons_succ, List.getD_cons_zero]
    rw [if_neg hl1]
    rw [if_neg (not_not_intro hn)]
    rw [if_neg hl2]
    rw [if_pos rfl]
  rw [hm]
  exact ⟨rfl, rfl, rfl, rfl, rfl⟩

/-- C9 witness: the literal message `/model gemini` on a fresh agent. -/
theorem c9_model_without_message_witness :
    ((processMessage agEx ([] : List Hook) (CallResult.ok ("g")) (CallResult.ok ("o"))
        ("/model gemini") ("u") 0 1).resp
      = systemResponse (("Model set to ") ++ pyLower ("gemini") ++ (". Now send your message.")))
    ∧ (processMessage agEx ([] : List Hook) (CallResult.ok ("g")) (CallResult.ok ("o"))
        ("/model gemini") ("u") 0 1).conversations = agEx.conversations
    ∧ (processMessage agEx ([] : List Hook) (CallResult.ok ("g")) (CallResult.ok ("o"))
        ("/model gemini") ("u") 0 1).geminiCalls = 0
    ∧ (processMessage agEx ([] : List Hook) (CallResult.ok ("g")) (CallResult.ok ("o"))
        ("/model gemini") ("u") 0 1).ollamaCalls = 0
    ∧ (processMessage agEx ([] : List Hook) (CallResult.ok ("g")) (CallResult.ok ("o"))
        ("/model gemini") ("u") 0 1).routerArgs = none :=
  c9_model_without_message agEx ([] : List Hook) (CallResult.ok ("g")) (CallResult.ok ("o"))
    ("/model gemini") ("u") 0 1 ("gemini") (by decide) (by decide) (Or.inr (by decide))

end OpenClaw
